import Mathlib

/-!
Verification development for the ESP32 wireless-drivers port:
shallow embeddings of

* `esp-mbedtls/port/sha/parallel_engine/sha.c` — SHA engine arbitration
  (per-engine exclusion tokens, `engines_in_use` power-domain counter,
  register-window spinlock, block/digest hardware operations);
* `esp-mbedtls/port/aes/block/esp_aes.c` — AES block-cipher sessions;
* `components/esp_system/port/cpu_start.c` — dual-core boot bring-up.

Machine integers are modelled as `Nat`/`Int` with explicit `% 2^w`
where the C type can overflow; external collaborators (hardware access
functions, the NuttX semaphore) are modelled by their documented
semantics, with the call sites recorded as events where a claim is
about what gets called.
-/

namespace ShaPort

/-- Source `esp_sha_type` from `hal/sha_types.h`, as used by `sha.c`. -/
inductive esp_sha_type where
  | SHA1
  | SHA2_256
  | SHA2_384
  | SHA2_512
deriving DecidableEq, Repr

open esp_sha_type

/-- Source `block_length` in `sha.c`: block size in words for a SHA type. -/
def block_length : esp_sha_type → Nat
  | SHA1 => 64 / 4
  | SHA2_256 => 64 / 4
  | SHA2_384 => 128 / 4
  | SHA2_512 => 128 / 4

/-- Source `sha_engine_index` in `sha.c`: index into the `engine_states` array. -/
def sha_engine_index : esp_sha_type → Fin 3
  | SHA1 => 0
  | SHA2_256 => 1
  | _ => 2

/-- Source `pdFALSE` from the compatibility macros at the top of `sha.c`. -/
def pdFALSE : Int := 0

/-- Source `pdTRUE` from the compatibility macros at the top of `sha.c`. -/
def pdTRUE : Int := 1

/-- Source `portMAX_DELAY` from the compatibility macros in `sha.c`. -/
def portMAX_DELAY : Nat := 0xffffffff

/-- The three entries of the `static SemaphoreHandle_t engine_states[3]`
array.  `none` models a `NULL` handle (semaphore not yet created);
`some c` models a created NuttX `sem_t` whose current count is `c`. -/
structure EngineStates where
  e0 : Option Nat
  e1 : Option Nat
  e2 : Option Nat
deriving DecidableEq, Repr

def EngineStates.get (es : EngineStates) : Fin 3 → Option Nat
  | 0 => es.e0
  | 1 => es.e1
  | 2 => es.e2

def EngineStates.set (es : EngineStates) : Fin 3 → Option Nat → EngineStates
  | 0, v => { es with e0 := v }
  | 1, v => { es with e1 := v }
  | 2, v => { es with e2 := v }

/-- The mutable state of the SHA arbitration module in `sha.c`:
the `engine_states` semaphores, the `uint8_t engines_in_use` counter
(kept as a `Nat < 256`), and whether `PERIPH_SHA_MODULE` is currently
enabled (the effect of `periph_module_enable`/`periph_module_disable`). -/
structure ShaRegState where
  engine_states : EngineStates
  engines_in_use : Nat
  sha_periph_enabled : Bool
deriving DecidableEq, Repr

/-- The state at program start: all semaphore handles `NULL`,
`engines_in_use = 0` (static zero initialisation), SHA domain off. -/
def initShaRegState : ShaRegState :=
  { engine_states := ⟨none, none, none⟩
    engines_in_use := 0
    sha_periph_enabled := false }

/-- NuttX `sem_wait` on the semaphore at index `i`, as invoked through the
`xSemaphoreTake(sem, t)` macro of `sha.c` (which discards the tick
argument).  If the count is positive it is decremented and the call
returns `OK = 0`; if the count is zero the caller blocks until another
task posts, which we model as no immediate return (`none`). -/
def sem_wait (s : ShaRegState) (i : Fin 3) : Option (ShaRegState × Int) :=
  match s.engine_states.get i with
  | some (c + 1) =>
      some ({ s with engine_states := s.engine_states.set i (some c) }, 0)
  | _ => none

/-- NuttX `sem_post`, as invoked through the `xSemaphoreGive(sem)` macro of
`sha.c`: increments the semaphore count. -/
def sem_post (c : Nat) : Nat := c + 1

/-- Source `sha_get_engine_state` in `sha.c`: lazily creates the semaphore for the
engine on first use.  `xSemaphoreCreateBinary` does `sem_init(x, 0, 1)`
(count 1), and the subsequent `xSemaphoreGive(new_engine)` posts it once
more.  Returns the updated state together with the engine index (the
handle is `&engine_states[idx]`). -/
def sha_get_engine_state (s : ShaRegState) (sha_type : esp_sha_type) :
    ShaRegState × Fin 3 :=
  let idx := sha_engine_index sha_type
  match s.engine_states.get idx with
  | some _ => (s, idx)
  | none =>
      ({ s with engine_states := s.engine_states.set idx (some (sem_post 1)) }, idx)

/-- Source `esp_sha_lock_engine_common` in `sha.c`.  `none` means the call blocked
inside `sem_wait` and never returned (within the modelled step); `some
(s, b)` means it returned `b` with module state `s`.  Faithful to the
port: `xSemaphoreTake` ignores `ticks_to_wait`, and the result of
`sem_wait` (`0` on success) is compared against `pdFALSE = 0`. -/
def esp_sha_lock_engine_common (s : ShaRegState) (sha_type : esp_sha_type)
    (ticks_to_wait : Nat) : Option (ShaRegState × Bool) :=
  let (s1, idx) := sha_get_engine_state s sha_type
  let _ := ticks_to_wait  -- discarded by the xSemaphoreTake macro
  match sem_wait s1 idx with
  | none => none
  | some (s2, result) =>
      if result = pdFALSE then
        -- "failed to take semaphore"
        some (s2, false)
      else
        -- portENTER_CRITICAL(&engines_in_use_lock);
        let s3 :=
          if s2.engines_in_use = 0 then
            { s2 with sha_periph_enabled := true }  -- periph_module_enable
          else s2
        let s4 := { s3 with engines_in_use := (s3.engines_in_use + 1) % 256 }
        -- portEXIT_CRITICAL(&engines_in_use_lock);
        some (s4, true)

/-- Source `esp_sha_try_lock_engine` in `sha.c`: the non-blocking acquire,
delegating to the common routine with `ticks_to_wait = 0`. -/
def esp_sha_try_lock_engine (s : ShaRegState) (sha_type : esp_sha_type) :
    Option (ShaRegState × Bool) :=
  esp_sha_lock_engine_common s sha_type 0

/-- Source `esp_sha_lock_engine` in `sha.c`: the blocking acquire, delegating to
the common routine with `portMAX_DELAY` and discarding its result. -/
def esp_sha_lock_engine (s : ShaRegState) (sha_type : esp_sha_type) :
    Option ShaRegState :=
  (esp_sha_lock_engine_common s sha_type portMAX_DELAY).map Prod.fst

/-- Source `esp_sha_unlock_engine` in `sha.c`: decrements the `uint8_t` counter
(with wrap-around at 0, as in C), disables `PERIPH_SHA_MODULE` if the
counter reached 0, then posts the engine semaphore. -/
def esp_sha_unlock_engine (s : ShaRegState) (sha_type : esp_sha_type) :
    ShaRegState :=
  let (s1, idx) := sha_get_engine_state s sha_type
  -- portENTER_CRITICAL(&engines_in_use_lock);  engines_in_use--
  let n := (s1.engines_in_use + 255) % 256
  let s2 := { s1 with engines_in_use := n }
  let s3 :=
    if n = 0 then { s2 with sha_periph_enabled := false }  -- periph_module_disable
    else s2
  -- portEXIT_CRITICAL; xSemaphoreGive(engine_state)
  { s3 with
      engine_states := s3.engine_states.set idx
        ((s3.engine_states.get idx).map sem_post) }

/-! ### Register-window lock and hardware block operations

Functions `esp_sha_block` / `esp_sha_read_digest_state` drive the single physical
register window.  We model the spinlock state plus a trace of the
hardware-facing actions performed, each entry recording whether the
register-window lock was held while that action executed.  The debug-only
`#ifndef NDEBUG` assertion blocks at the top of both functions are
compiled out in release builds and are not part of the model. -/

/-- One hardware-facing action of the SHA block/digest routines. -/
inductive ShaHalAction where
  /-- Source `sha_hal_wait_idle()`: poll the hardware-busy signal until idle. -/
  | waitIdle
  /-- Source `esp_sha_lock_memory_block()`: `spin_lock_irqsave(&memory_block_lock)`. -/
  | lockMem
  /-- Source `sha_hal_hash_block(t, data, len, first)`: one block transform. -/
  | hashBlock (sha_type : esp_sha_type) (data_block : List Nat)
      (block_word_len : Nat) (first_block : Bool)
  /-- Source `sha_hal_read_digest(t, out)`: one digest read. -/
  | readDigest (sha_type : esp_sha_type)
  /-- Source `esp_sha_unlock_memory_block()`: `spin_unlock_irqrestore`. -/
  | unlockMem
deriving DecidableEq, Repr

/-- State threaded through the block/digest routines: whether
`memory_block_lock` is currently held, and the trace of actions so far,
each paired with the lock state at the moment it executed. -/
structure MemBlockState where
  locked : Bool
  trace : List (ShaHalAction × Bool)
deriving DecidableEq, Repr

def sha_hal_wait_idle (m : MemBlockState) : MemBlockState :=
  { m with trace := m.trace ++ [(.waitIdle, m.locked)] }

def esp_sha_lock_memory_block (m : MemBlockState) : MemBlockState :=
  { locked := true, trace := m.trace ++ [(.lockMem, m.locked)] }

def esp_sha_unlock_memory_block (m : MemBlockState) : MemBlockState :=
  { locked := false, trace := m.trace ++ [(.unlockMem, m.locked)] }

def sha_hal_hash_block (sha_type : esp_sha_type) (data_block : List Nat)
    (block_word_len : Nat) (first_block : Bool) (m : MemBlockState) :
    MemBlockState :=
  { m with
      trace := m.trace ++
        [(.hashBlock sha_type data_block block_word_len first_block, m.locked)] }

def sha_hal_read_digest (sha_type : esp_sha_type) (m : MemBlockState) :
    MemBlockState :=
  { m with trace := m.trace ++ [(.readDigest sha_type, m.locked)] }

/-- Source `esp_sha_block` in `sha.c`: wait idle (outside the lock), lock the
memory block, hash one block of `block_length sha_type` words, unlock. -/
def esp_sha_block (sha_type : esp_sha_type) (data_block : List Nat)
    (first_block : Bool) (m : MemBlockState) : MemBlockState :=
  let m1 := sha_hal_wait_idle m
  let m2 := esp_sha_lock_memory_block m1
  let m3 := sha_hal_hash_block sha_type data_block (block_length sha_type)
    first_block m2
  esp_sha_unlock_memory_block m3

/-- Source `esp_sha_read_digest_state` in `sha.c`: wait idle (outside the lock),
lock the memory block, read the digest, unlock. -/
def esp_sha_read_digest_state (sha_type : esp_sha_type) (m : MemBlockState) :
    MemBlockState :=
  let m1 := sha_hal_wait_idle m
  let m2 := esp_sha_lock_memory_block m1
  let m3 := sha_hal_read_digest sha_type m2
  esp_sha_unlock_memory_block m3

end ShaPort

namespace AesPort

/-! Shallow embedding of `esp-mbedtls/port/aes/block/esp_aes.c`.  The
NuttX crypto backend `aes_cypher` and the key-length validator
`valid_key_length` (declared in headers outside this port) are external
collaborators, modelled as abstract components quantified over in the
theorems; every invocation of `aes_cypher` is recorded as an event in
the world state so that "no hardware access" is observable. -/

/-- Source `AES_MODE_ECB` / `AES_MODE_CBC` from the NuttX crypto interface. -/
inductive aes_mode where
  | AES_MODE_ECB
  | AES_MODE_CBC
deriving DecidableEq, Repr

/-- Source `CYPHER_ENCRYPT` direction constant of the NuttX crypto interface. -/
def CYPHER_ENCRYPT : Int := 1

/-- Source `CYPHER_DECRYPT` direction constant of the NuttX crypto interface. -/
def CYPHER_DECRYPT : Int := 0

/-- Source `MBEDTLS_ERR_AES_INVALID_KEY_LENGTH` from `mbedtls/aes.h`. -/
def MBEDTLS_ERR_AES_INVALID_KEY_LENGTH : Int := -0x0020

/-- Source `ERR_ESP_AES_INVALID_INPUT_LENGTH` from `aes/esp_aes.h` (outside this
port's sources; the exact numeric value is immaterial to the claims,
which only compare against this named constant). -/
def ERR_ESP_AES_INVALID_INPUT_LENGTH : Int := -0x5380

/-- The `esp_aes_context` fields used by `esp_aes.c`: the key, its length
in bytes, and the `key_in_hardware` resident flag. -/
structure esp_aes_context where
  key : List Nat
  key_bytes : Nat
  key_in_hardware : Nat
deriving DecidableEq, Repr

/-- One recorded invocation of the NuttX `aes_cypher` backend, with the
arguments the port passed to it. -/
structure CypherCall where
  input : List Nat
  length : Nat
  iv : Option (List Nat)
  key : List Nat
  key_bytes : Nat
  mode : aes_mode
  dir : Int
deriving DecidableEq, Repr

/-- Hardware-side state visible to the AES port: whether the AES
peripheral clock is enabled, whether the AES spinlock is held (both
would be touched by the commented-out bodies of
`esp_aes_acquire_hardware`/`esp_aes_release_hardware`), and the trace of
`aes_cypher` invocations. -/
structure AesWorld where
  aes_periph_enabled : Bool
  aes_spinlock_held : Bool
  calls : List CypherCall
deriving DecidableEq, Repr

/-- Behaviour of the external collaborators: the NuttX `aes_cypher`
backend (given the input, length, optional IV, key, key length, mode and
direction, produce the return code, the output buffer contents and the
updated IV) and `valid_key_length` from the AES port's shared code. -/
structure AesHw where
  cypher : List Nat → Nat → Option (List Nat) → List Nat → Nat →
    aes_mode → Int → Int × List Nat × Option (List Nat)
  valid_key_length : esp_aes_context → Bool

/-- Source `esp_aes_acquire_hardware` in `esp_aes.c`: its entire body is
commented out, so it is the identity on the world. -/
def esp_aes_acquire_hardware (w : AesWorld) : AesWorld := w

/-- Source `esp_aes_release_hardware` in `esp_aes.c`: its entire body is
commented out, so it is the identity on the world. -/
def esp_aes_release_hardware (w : AesWorld) : AesWorld := w

/-- An invocation of the NuttX `aes_cypher` backend: records the call in
the world and returns `(ret, output, iv')` as computed by `hw`. -/
def aes_cypher (hw : AesHw) (w : AesWorld) (input : List Nat) (length : Nat)
    (iv : Option (List Nat)) (key : List Nat) (key_bytes : Nat)
    (mode : aes_mode) (dir : Int) :
    AesWorld × Int × List Nat × Option (List Nat) :=
  ({ w with
      calls := w.calls ++
        [{ input := input, length := length, iv := iv, key := key,
           key_bytes := key_bytes, mode := mode, dir := dir }] },
   hw.cypher input length iv key key_bytes mode dir)

/-- Result of a single-block AES port operation: the world, the updated
context, the `int` return value, and the output buffer contents. -/
structure AesResult where
  world : AesWorld
  ctx : esp_aes_context
  ret : Int
  output : List Nat
deriving DecidableEq, Repr

/-- Source `esp_internal_aes_encrypt` in `esp_aes.c`. -/
def esp_internal_aes_encrypt (hw : AesHw) (w : AesWorld)
    (ctx : esp_aes_context) (input : List Nat) (output : List Nat) :
    AesResult :=
  if ¬ hw.valid_key_length ctx then
    { world := w, ctx := ctx, ret := MBEDTLS_ERR_AES_INVALID_KEY_LENGTH,
      output := output }
  else
    let w1 := esp_aes_acquire_hardware w
    let ctx1 := { ctx with key_in_hardware := 0 }
    let res := aes_cypher hw w1 input 16 none ctx1.key
      ctx1.key_bytes .AES_MODE_ECB CYPHER_ENCRYPT
    let r := res.2.1
    let ctx2 :=
      if r = 0 then { ctx1 with key_in_hardware := ctx1.key_bytes } else ctx1
    { world := esp_aes_release_hardware res.1, ctx := ctx2, ret := r,
      output := res.2.2.1 }

/-- Source `esp_internal_aes_decrypt` in `esp_aes.c`.  Note the source sets
`ctx->key_in_hardware = 16` (a literal) on success, unlike its siblings
which use `ctx->key_bytes`. -/
def esp_internal_aes_decrypt (hw : AesHw) (w : AesWorld)
    (ctx : esp_aes_context) (input : List Nat) (output : List Nat) :
    AesResult :=
  if ¬ hw.valid_key_length ctx then
    { world := w, ctx := ctx, ret := MBEDTLS_ERR_AES_INVALID_KEY_LENGTH,
      output := output }
  else
    let w1 := esp_aes_acquire_hardware w
    let ctx1 := { ctx with key_in_hardware := 0 }
    let res := aes_cypher hw w1 input 16 none ctx1.key
      ctx1.key_bytes .AES_MODE_ECB CYPHER_DECRYPT
    let r := res.2.1
    let ctx2 := if r = 0 then { ctx1 with key_in_hardware := 16 } else ctx1
    { world := esp_aes_release_hardware res.1, ctx := ctx2, ret := r,
      output := res.2.2.1 }

/-- Source `esp_aes_crypt_ecb` in `esp_aes.c`.  The `mode` argument is received
but the direction passed to `aes_cypher` is the literal
`CYPHER_DECRYPT`. -/
def esp_aes_crypt_ecb (hw : AesHw) (w : AesWorld) (ctx : esp_aes_context)
    (mode : Int) (input : List Nat) (output : List Nat) : AesResult :=
  let _ := mode  -- never used in the body
  if ¬ hw.valid_key_length ctx then
    { world := w, ctx := ctx, ret := MBEDTLS_ERR_AES_INVALID_KEY_LENGTH,
      output := output }
  else
    let w1 := esp_aes_acquire_hardware w
    let ctx1 := { ctx with key_in_hardware := 0 }
    let res := aes_cypher hw w1 input 16 none ctx1.key
      ctx1.key_bytes .AES_MODE_ECB CYPHER_DECRYPT
    let r := res.2.1
    let ctx2 :=
      if r = 0 then { ctx1 with key_in_hardware := ctx1.key_bytes } else ctx1
    { world := esp_aes_release_hardware res.1, ctx := ctx2, ret := r,
      output := res.2.2.1 }

/-- Result of `esp_aes_crypt_cbc`: also carries the IV buffer, updated by
the hardware. -/
structure AesCbcResult where
  world : AesWorld
  ctx : esp_aes_context
  ret : Int
  iv : List Nat
  output : List Nat
deriving DecidableEq, Repr

/-- Source `esp_aes_crypt_cbc` in `esp_aes.c`.  The length check comes first,
then the key-length check, then the hardware run; on success the source
sets `ctx->key_in_hardware = length` (the buffer length, not the key
length). -/
def esp_aes_crypt_cbc (hw : AesHw) (w : AesWorld) (ctx : esp_aes_context)
    (mode : Int) (length : Nat) (iv : List Nat) (input : List Nat)
    (output : List Nat) : AesCbcResult :=
  if length % 16 ≠ 0 then
    { world := w, ctx := ctx, ret := ERR_ESP_AES_INVALID_INPUT_LENGTH,
      iv := iv, output := output }
  else if ¬ hw.valid_key_length ctx then
    { world := w, ctx := ctx, ret := MBEDTLS_ERR_AES_INVALID_KEY_LENGTH,
      iv := iv, output := output }
  else
    let w1 := esp_aes_acquire_hardware w
    let ctx1 := { ctx with key_in_hardware := 0 }
    let res := aes_cypher hw w1 input length (some iv) ctx1.key
      ctx1.key_bytes .AES_MODE_CBC mode
    let r := res.2.1
    let ctx2 := if r = 0 then { ctx1 with key_in_hardware := length } else ctx1
    { world := esp_aes_release_hardware res.1, ctx := ctx2, ret := r,
      iv := (res.2.2.2).getD iv, output := res.2.2.1 }

/-- A concrete behaviour of the external collaborators, used to evaluate
the port's functions on closed inputs: the cypher always succeeds,
returns a zero buffer of the input's length and leaves the IV as given;
key lengths of 16, 24 and 32 bytes are the supported ones. -/
def sampleAesHw : AesHw :=
  { cypher := fun input _length iv _key _key_bytes _mode _dir =>
      (0, List.replicate input.length 0, iv)
    valid_key_length := fun ctx =>
      decide (ctx.key_bytes = 16 ∨ ctx.key_bytes = 24 ∨ ctx.key_bytes = 32) }

/-- A concrete world with nothing enabled and no recorded calls. -/
def emptyAesWorld : AesWorld :=
  { aes_periph_enabled := false, aes_spinlock_held := false, calls := [] }

end AesPort

namespace BootPort

/-! Shallow embedding of the dual-core bring-up in
`components/esp_system/port/cpu_start.c`, in its ESP32 dual-core
configuration (`SOC_CPU_CORES_NUM = 2`,
`!CONFIG_ESP_SYSTEM_SINGLE_CORE_MODE`, no SPIRAM).  Only the primary
core executes in the model: external register writes (cache, clocks,
interrupt matrix, flash configuration, watchdog) touch none of the
modelled state and are noted as comments at their place in the
sequence.  The busy-poll loops reload flags that nothing in the loop
body changes, so with no concurrently running secondary core a loop
exits iff its condition already holds when it is reached; a run that
would spin forever is reported as not completed. -/

/-- The values of `RESET_REASON` (from `esp32/rom/rtc.h`) that
`call_start_cpu0` compares against, plus a representative for the
remaining members of the enum. -/
inductive RESET_REASON where
  | POWERON_RESET
  | DEEPSLEEP_RESET
  | RTCWDT_SYS_RESET
  | TG0WDT_SYS_RESET
  | OTHER_RESET
deriving DecidableEq, Repr

/-- Observable events of a bring-up run. -/
inductive BootEvent where
  /-- The primary core entered the `while(!cpus_up)` busy-poll loop in
  `start_other_core` that waits for every core's `s_cpu_up` flag. -/
  | enteredPeerWaitLoop
  /-- The primary core invoked `SYS_STARTUP_FN()`. -/
  | sysStartup
deriving DecidableEq, Repr

/-- The state touched by the modelled slice of `cpu_start.c`:
the per-core flag arrays `s_cpu_up` / `s_cpu_inited`, the
`s_resume_cores` flag (all statics living in `.bss`), the ordinary
`.bss` and RTC `.rtc_bss` memory regions, and the app CPU's clock-gate
bit `DPORT_APPCPU_CLKGATE_EN`. -/
structure BootState where
  up0 : Bool
  up1 : Bool
  inited0 : Bool
  inited1 : Bool
  resume_cores : Bool
  bss : List Nat
  rtc_bss : List Nat
  appcpu_clkgate : Bool
deriving DecidableEq, Repr

/-- Source `memset(region, 0, size)` over a whole region. -/
def memset_zero (r : List Nat) : List Nat := List.replicate r.length 0

/-- Source `start_other_core` in `cpu_start.c`.  The efuse bit
`EFUSE_RD_CHIP_VER_DIS_APP_CPU` is an input.  Returns the state, whether
the routine ran to completion (`false` means it is stuck in the
peer-wait busy loop), and the events of the run. -/
def start_other_core (fuse_dis_app_cpu : Bool) (s : BootState) :
    BootState × Bool × List BootEvent :=
  if ¬ fuse_dis_app_cpu then
    -- Cache_Flush(1); Cache_Read_Enable(1); esp_cpu_unstall(1): external.
    -- Enable clock and reset APP CPU unless OpenOCD already did:
    let s1 :=
      if ¬ s.appcpu_clkgate then { s with appcpu_clkgate := true } else s
    -- ets_set_appcpu_boot_addr(call_start_cpu1): external.
    -- while(!cpus_up) { cpus_up = true; for i: cpus_up &= s_cpu_up[i]; }
    -- The body always runs at least once; it exits iff both up flags hold.
    (s1, s1.up0 && s1.up1, [.enteredPeerWaitLoop])
  else
    -- s_cpu_inited[1] = true; clear DPORT_APPCPU_CLKGATE_EN.
    ({ s with inited1 := true, appcpu_clkgate := false }, true, [])

/-- Source `call_start_cpu0` in `cpu_start.c` (primary-core routine), from entry
to `SYS_STARTUP_FN`.  `rst_reas0`/`rst_reas1` are the values returned by
`rtc_get_reset_reason(0)` / `rtc_get_reset_reason(1)`; `rst_reas1` is
only used by the watchdog-disable step, which touches no modelled
state. -/
def call_start_cpu0 (fuse_dis_app_cpu : Bool)
    (rst_reas0 rst_reas1 : RESET_REASON) (s : BootState) :
    BootState × Bool × List BootEvent :=
  let _ := rst_reas1
  -- bootloader_init_mem(); cpu_hal_set_vecbase(&_init_start): external.
  -- Watchdog disable on RTCWDT/TG0WDT reset reasons: external hardware.
  -- memset(&_bss_start, 0, ...): the s_cpu_up / s_cpu_inited /
  -- s_resume_cores statics are zero-initialised and live in .bss.
  let s1 := { s with
    bss := memset_zero s.bss,
    up0 := false, up1 := false, inited0 := false, inited1 := false,
    resume_cores := false }
  -- Unless waking from deep sleep, clear RTC bss:
  let s2 :=
    if rst_reas0 ≠ RESET_REASON.DEEPSLEEP_RESET then
      { s1 with rtc_bss := memset_zero s1.rtc_bss }
    else s1
  -- s_cpu_up[0] = true;
  let s3 := { s2 with up0 := true }
  let r := start_other_core fuse_dis_app_cpu s3
  let s4 := r.1
  let completed := r.2.1
  let evs := r.2.2
  if ¬ completed then (s4, false, evs)
  else
    -- trax, esp_clk_init, esp_perip_clk_init, intr_matrix_clear,
    -- rtc_gpio_force_hold_dis_all, esp_cache_err_int_init,
    -- bootloader_flash_*: external register configuration.
    -- s_cpu_inited[0] = true;
    let s5 := { s4 with inited0 := true }
    -- while(!cpus_inited) { cpus_inited = true; for i: &= s_cpu_inited[i]; }
    if s5.inited0 && s5.inited1 then (s5, true, evs ++ [.sysStartup])
    else (s5, false, evs)

end BootPort

namespace ShaPort

/-- C1: the claim states that for every SHA engine type the non-blocking
`esp_sha_try_lock_engine` returns `true` (holding the token) when the
engine's exclusion token is available, and returns `false` immediately,
without suspending, when it is unavailable.  The port does the opposite:
from the initial state (token available) the call consumes the token but
returns `false`, because the NuttX `sem_wait` behind the `xSemaphoreTake`
macro returns `0 = pdFALSE` on success; and with the token unavailable
the call never returns at all (models as `none`), because the macro
discards the zero-tick argument and `sem_wait` blocks. -/
theorem C1_try_lock_inverted :
    esp_sha_try_lock_engine initShaRegState esp_sha_type.SHA1 =
      some ({ engine_states := ⟨some 1, none, none⟩, engines_in_use := 0,
              sha_periph_enabled := false }, false) ∧
    esp_sha_try_lock_engine
      { engine_states := ⟨some 0, none, none⟩, engines_in_use := 0,
        sha_periph_enabled := false } esp_sha_type.SHA1 = none :=
  ⟨rfl, rfl⟩

/-- C2: the claim states that a successful take of the instance token
increments `engines_in_use` and, on the 0 to 1 transition, enables the
SHA power domain before returning.  In the port the success branch of
`xSemaphoreTake` is misclassified (`sem_wait` returns `0 = pdFALSE` on
success), so the blocking `esp_sha_lock_engine` on an available engine
consumes the token (count 2 becomes 1) yet leaves `engines_in_use = 0`
and the power domain disabled. -/
theorem C2_lock_skips_counter_and_power :
    esp_sha_lock_engine initShaRegState esp_sha_type.SHA1 =
      some { engine_states := ⟨some 1, none, none⟩, engines_in_use := 0,
             sha_periph_enabled := false } :=
  rfl

/-- C3: the claim states the invariant `0 ≤ engines_in_use ≤ 3` (with the
counter matching the number of acquired instances and the power domain
enabled iff it is positive) in every reachable state.  The well-bracketed
trace lock(SHA1); unlock(SHA1) already breaks it: the lock never
increments the counter (see C2), so the `uint8_t` decrement in
`esp_sha_unlock_engine` wraps from 0 to 255, violating
`engines_in_use ≤ 3`. -/
theorem C3_counter_invariant_violated :
    ((esp_sha_lock_engine initShaRegState esp_sha_type.SHA1).map
        (fun s => esp_sha_unlock_engine s esp_sha_type.SHA1)).map
      ShaRegState.engines_in_use = some 255 ∧
    ∀ s : ShaRegState, s.engines_in_use = 255 → ¬ s.engines_in_use ≤ 3 := by
  refine ⟨rfl, ?_⟩
  intro s hs
  rw [hs]
  decide

/-- C10: in every execution of `esp_sha_block` and of
`esp_sha_read_digest_state`, the steps occur in the order: idle-wait with
the register-window lock not held, take the lock, exactly one hardware
block transform (resp. digest read), release the lock; the lock is never
held during the idle wait. -/
theorem C10_block_digest_lock_ordering (m : MemBlockState)
    (sha_type : esp_sha_type) (data_block : List Nat) (first_block : Bool)
    (h : m.locked = false) :
    (esp_sha_block sha_type data_block first_block m).trace =
      m.trace ++
        [(ShaHalAction.waitIdle, false),
         (ShaHalAction.lockMem, false),
         (ShaHalAction.hashBlock sha_type data_block (block_length sha_type)
            first_block, true),
         (ShaHalAction.unlockMem, true)] ∧
    (esp_sha_block sha_type data_block first_block m).locked = false ∧
    (esp_sha_read_digest_state sha_type m).trace =
      m.trace ++
        [(ShaHalAction.waitIdle, false),
         (ShaHalAction.lockMem, false),
         (ShaHalAction.readDigest sha_type, true),
         (ShaHalAction.unlockMem, true)] ∧
    (esp_sha_read_digest_state sha_type m).locked = false := by
  simp [esp_sha_block, esp_sha_read_digest_state, sha_hal_wait_idle,
    esp_sha_lock_memory_block, sha_hal_hash_block, sha_hal_read_digest,
    esp_sha_unlock_memory_block, h]

/-- Witness for C10 at a concrete state and inputs. -/
theorem C10_block_digest_lock_ordering_witness :
    (({ locked := false, trace := [] } : MemBlockState).locked = false) ∧
    ((esp_sha_block esp_sha_type.SHA1 [7] true
        { locked := false, trace := [] }).trace =
      [] ++
        [(ShaHalAction.waitIdle, false),
         (ShaHalAction.lockMem, false),
         (ShaHalAction.hashBlock esp_sha_type.SHA1 [7]
            (block_length esp_sha_type.SHA1) true, true),
         (ShaHalAction.unlockMem, true)] ∧
      (esp_sha_block esp_sha_type.SHA1 [7] true
        { locked := false, trace := [] }).locked = false ∧
      (esp_sha_read_digest_state esp_sha_type.SHA1
        { locked := false, trace := [] }).trace =
      [] ++
        [(ShaHalAction.waitIdle, false),
         (ShaHalAction.lockMem, false),
         (ShaHalAction.readDigest esp_sha_type.SHA1, true),
         (ShaHalAction.unlockMem, true)] ∧
      (esp_sha_read_digest_state esp_sha_type.SHA1
        { locked := false, trace := [] }).locked = false) :=
  ⟨rfl, C10_block_digest_lock_ordering { locked := false, trace := [] }
    esp_sha_type.SHA1 [7] true rfl⟩

end ShaPort

namespace AesPort

/-- C4: `esp_aes_acquire_hardware` and `esp_aes_release_hardware` leave
every component of the state unchanged (their bodies are commented out):
each maps `w` to `w`; consequently no spinlock is taken or released and
the AES power/clock domain is not toggled around any of the four
block-cipher operations. -/
theorem C4_acquire_release_frame :
    (∀ w : AesWorld, esp_aes_acquire_hardware w = w) ∧
    (∀ w : AesWorld, esp_aes_release_hardware w = w) ∧
    (∀ (hw : AesHw) (w : AesWorld) (ctx : esp_aes_context)
        (input output : List Nat),
      (esp_internal_aes_encrypt hw w ctx input output).world.aes_periph_enabled
          = w.aes_periph_enabled ∧
      (esp_internal_aes_encrypt hw w ctx input output).world.aes_spinlock_held
          = w.aes_spinlock_held) ∧
    (∀ (hw : AesHw) (w : AesWorld) (ctx : esp_aes_context)
        (input output : List Nat),
      (esp_internal_aes_decrypt hw w ctx input output).world.aes_periph_enabled
          = w.aes_periph_enabled ∧
      (esp_internal_aes_decrypt hw w ctx input output).world.aes_spinlock_held
          = w.aes_spinlock_held) ∧
    (∀ (hw : AesHw) (w : AesWorld) (ctx : esp_aes_context) (mode : Int)
        (input output : List Nat),
      (esp_aes_crypt_ecb hw w ctx mode input output).world.aes_periph_enabled
          = w.aes_periph_enabled ∧
      (esp_aes_crypt_ecb hw w ctx mode input output).world.aes_spinlock_held
          = w.aes_spinlock_held) ∧
    (∀ (hw : AesHw) (w : AesWorld) (ctx : esp_aes_context) (mode : Int)
        (length : Nat) (iv input output : List Nat),
      (esp_aes_crypt_cbc hw w ctx mode length iv input output).world.aes_periph_enabled
          = w.aes_periph_enabled ∧
      (esp_aes_crypt_cbc hw w ctx mode length iv input output).world.aes_spinlock_held
          = w.aes_spinlock_held) := by
  refine ⟨fun w => rfl, fun w => rfl, ?_, ?_, ?_, ?_⟩
  · intro hw w ctx input output
    unfold esp_internal_aes_encrypt
    split <;> simp [aes_cypher, esp_aes_acquire_hardware, esp_aes_release_hardware]
  · intro hw w ctx input output
    unfold esp_internal_aes_decrypt
    split <;> simp [aes_cypher, esp_aes_acquire_hardware, esp_aes_release_hardware]
  · intro hw w ctx mode input output
    unfold esp_aes_crypt_ecb
    split <;> simp [aes_cypher, esp_aes_acquire_hardware, esp_aes_release_hardware]
  · intro hw w ctx mode length iv input output
    unfold esp_aes_crypt_cbc
    split <;> [skip; split] <;>
      simp [aes_cypher, esp_aes_acquire_hardware, esp_aes_release_hardware]

/-- C5: `esp_aes_crypt_ecb` ignores its `mode` argument — its result is
the same for any two mode values; whenever it reaches the hardware, the
single `aes_cypher` call it records carries direction `CYPHER_DECRYPT`;
and its result agrees with `esp_internal_aes_decrypt` on the same
context and input in return value, output, world, and context, up to the
final `key_in_hardware` value (the key and key-length fields agree). -/
theorem C5_ecb_ignores_mode (hw : AesHw) (w : AesWorld)
    (ctx : esp_aes_context) (mode1 mode2 : Int) (input output : List Nat) :
    esp_aes_crypt_ecb hw w ctx mode1 input output =
      esp_aes_crypt_ecb hw w ctx mode2 input output ∧
    (esp_aes_crypt_ecb hw w ctx mode1 input output).world.calls =
      (if hw.valid_key_length ctx then
        w.calls ++ [{ input := input, length := 16, iv := none,
                      key := ctx.key, key_bytes := ctx.key_bytes,
                      mode := aes_mode.AES_MODE_ECB, dir := CYPHER_DECRYPT }]
       else w.calls) ∧
    (esp_aes_crypt_ecb hw w ctx mode1 input output).ret =
      (esp_internal_aes_decrypt hw w ctx input output).ret ∧
    (esp_aes_crypt_ecb hw w ctx mode1 input output).output =
      (esp_internal_aes_decrypt hw w ctx input output).output ∧
    (esp_aes_crypt_ecb hw w ctx mode1 input output).world =
      (esp_internal_aes_decrypt hw w ctx input output).world ∧
    (esp_aes_crypt_ecb hw w ctx mode1 input output).ctx.key =
      (esp_internal_aes_decrypt hw w ctx input output).ctx.key ∧
    (esp_aes_crypt_ecb hw w ctx mode1 input output).ctx.key_bytes =
      (esp_internal_aes_decrypt hw w ctx input output).ctx.key_bytes := by
  refine ⟨rfl, ?_, ?_⟩
  · unfold esp_aes_crypt_ecb
    split <;> simp_all [aes_cypher, esp_aes_acquire_hardware,
      esp_aes_release_hardware]
  · unfold esp_aes_crypt_ecb esp_internal_aes_decrypt
    split
    · simp
    · simp only [aes_cypher, esp_aes_acquire_hardware, esp_aes_release_hardware]
      split <;> simp

/-- C6: `esp_aes_crypt_cbc` rejects any length that is not a multiple of
16 with the invalid-input-length error, before the key-length check and
with no hardware call and no change to the context or the world (this
holds with no assumption on the key, so the length error takes priority
over the key check); and each of the four cipher operations rejects an
unsupported key length with the invalid-key-length error, again with no
hardware call and no state change. -/
theorem C6_error_fast_paths :
    (∀ (hw : AesHw) (w : AesWorld) (ctx : esp_aes_context) (mode : Int)
        (length : Nat) (iv input output : List Nat), length % 16 ≠ 0 →
      esp_aes_crypt_cbc hw w ctx mode length iv input output =
        { world := w, ctx := ctx, ret := ERR_ESP_AES_INVALID_INPUT_LENGTH,
          iv := iv, output := output }) ∧
    (∀ (hw : AesHw) (w : AesWorld) (ctx : esp_aes_context)
        (input output : List Nat), hw.valid_key_length ctx = false →
      esp_internal_aes_encrypt hw w ctx input output =
        { world := w, ctx := ctx, ret := MBEDTLS_ERR_AES_INVALID_KEY_LENGTH,
          output := output }) ∧
    (∀ (hw : AesHw) (w : AesWorld) (ctx : esp_aes_context)
        (input output : List Nat), hw.valid_key_length ctx = false →
      esp_internal_aes_decrypt hw w ctx input output =
        { world := w, ctx := ctx, ret := MBEDTLS_ERR_AES_INVALID_KEY_LENGTH,
          output := output }) ∧
    (∀ (hw : AesHw) (w : AesWorld) (ctx : esp_aes_context) (mode : Int)
        (input output : List Nat), hw.valid_key_length ctx = false →
      esp_aes_crypt_ecb hw w ctx mode input output =
        { world := w, ctx := ctx, ret := MBEDTLS_ERR_AES_INVALID_KEY_LENGTH,
          output := output }) ∧
    (∀ (hw : AesHw) (w : AesWorld) (ctx : esp_aes_context) (mode : Int)
        (length : Nat) (iv input output : List Nat),
        hw.valid_key_length ctx = false → length % 16 = 0 →
      esp_aes_crypt_cbc hw w ctx mode length iv input output =
        { world := w, ctx := ctx, ret := MBEDTLS_ERR_AES_INVALID_KEY_LENGTH,
          iv := iv, output := output }) := by
  refine ⟨?_, ?_, ?_, ?_, ?_⟩
  · intro hw w ctx mode length iv input output h
    unfold esp_aes_crypt_cbc
    simp [h]
  · intro hw w ctx input output h
    unfold esp_internal_aes_encrypt
    simp [h]
  · intro hw w ctx input output h
    unfold esp_internal_aes_decrypt
    simp [h]
  · intro hw w ctx mode input output h
    unfold esp_aes_crypt_ecb
    simp [h]
  · intro hw w ctx mode length iv input output hk hl
    unfold esp_aes_crypt_cbc
    simp [hk, hl]

/-- Witness for C6: each error path evaluated at concrete inputs (length
17 for the length error; a 5-byte key for the key-length error). -/
theorem C6_error_fast_paths_witness :
    ((17 : Nat) % 16 ≠ 0 ∧
      esp_aes_crypt_cbc sampleAesHw emptyAesWorld
          { key := List.replicate 16 0, key_bytes := 16, key_in_hardware := 0 }
          1 17 (List.replicate 16 0) (List.replicate 17 0)
          (List.replicate 17 0) =
        { world := emptyAesWorld,
          ctx := { key := List.replicate 16 0, key_bytes := 16,
                   key_in_hardware := 0 },
          ret := ERR_ESP_AES_INVALID_INPUT_LENGTH,
          iv := List.replicate 16 0, output := List.replicate 17 0 }) ∧
    (sampleAesHw.valid_key_length
        { key := [], key_bytes := 5, key_in_hardware := 0 } = false ∧
      esp_internal_aes_encrypt sampleAesHw emptyAesWorld
          { key := [], key_bytes := 5, key_in_hardware := 0 } [] [] =
        { world := emptyAesWorld,
          ctx := { key := [], key_bytes := 5, key_in_hardware := 0 },
          ret := MBEDTLS_ERR_AES_INVALID_KEY_LENGTH, output := [] } ∧
      esp_internal_aes_decrypt sampleAesHw emptyAesWorld
          { key := [], key_bytes := 5, key_in_hardware := 0 } [] [] =
        { world := emptyAesWorld,
          ctx := { key := [], key_bytes := 5, key_in_hardware := 0 },
          ret := MBEDTLS_ERR_AES_INVALID_KEY_LENGTH, output := [] } ∧
      esp_aes_crypt_ecb sampleAesHw emptyAesWorld
          { key := [], key_bytes := 5, key_in_hardware := 0 } 1 [] [] =
        { world := emptyAesWorld,
          ctx := { key := [], key_bytes := 5, key_in_hardware := 0 },
          ret := MBEDTLS_ERR_AES_INVALID_KEY_LENGTH, output := [] } ∧
      esp_aes_crypt_cbc sampleAesHw emptyAesWorld
          { key := [], key_bytes := 5, key_in_hardware := 0 } 1 16
          (List.replicate 16 0) (List.replicate 16 0)
          (List.replicate 16 0) =
        { world := emptyAesWorld,
          ctx := { key := [], key_bytes := 5, key_in_hardware := 0 },
          ret := MBEDTLS_ERR_AES_INVALID_KEY_LENGTH,
          iv := List.replicate 16 0, output := List.replicate 16 0 }) :=
  ⟨⟨by decide,
    C6_error_fast_paths.1 sampleAesHw emptyAesWorld
      { key := List.replicate 16 0, key_bytes := 16, key_in_hardware := 0 }
      1 17 (List.replicate 16 0) (List.replicate 17 0) (List.replicate 17 0)
      (by decide)⟩,
   rfl,
   C6_error_fast_paths.2.1 sampleAesHw emptyAesWorld
     { key := [], key_bytes := 5, key_in_hardware := 0 } [] [] rfl,
   C6_error_fast_paths.2.2.1 sampleAesHw emptyAesWorld
     { key := [], key_bytes := 5, key_in_hardware := 0 } [] [] rfl,
   C6_error_fast_paths.2.2.2.1 sampleAesHw emptyAesWorld
     { key := [], key_bytes := 5, key_in_hardware := 0 } 1 [] [] rfl,
   C6_error_fast_paths.2.2.2.2 sampleAesHw emptyAesWorld
     { key := [], key_bytes := 5, key_in_hardware := 0 } 1 16
     (List.replicate 16 0) (List.replicate 16 0) (List.replicate 16 0)
     rfl (by decide)⟩

/-- C7: the claim states that after a successful run the resident flag is
set to the key length used (`ctx->key_bytes`).  The source instead sets
the literal `16` in `esp_internal_aes_decrypt` and the buffer `length`
in `esp_aes_crypt_cbc`: with a 32-byte key a successful decrypt leaves
`key_in_hardware = 16`, and a successful 32-byte CBC run with a 16-byte
key leaves `key_in_hardware = 32`. -/
theorem C7_resident_flag_mismatch :
    ((esp_internal_aes_decrypt sampleAesHw emptyAesWorld
        { key := List.replicate 32 0, key_bytes := 32, key_in_hardware := 0 }
        (List.replicate 16 0) (List.replicate 16 0)).ret = 0 ∧
     (esp_internal_aes_decrypt sampleAesHw emptyAesWorld
        { key := List.replicate 32 0, key_bytes := 32, key_in_hardware := 0 }
        (List.replicate 16 0) (List.replicate 16 0)).ctx.key_bytes = 32 ∧
     (esp_internal_aes_decrypt sampleAesHw emptyAesWorld
        { key := List.replicate 32 0, key_bytes := 32, key_in_hardware := 0 }
        (List.replicate 16 0) (List.replicate 16 0)).ctx.key_in_hardware = 16) ∧
    ((esp_aes_crypt_cbc sampleAesHw emptyAesWorld
        { key := List.replicate 16 0, key_bytes := 16, key_in_hardware := 0 }
        1 32 (List.replicate 16 0) (List.replicate 32 0)
        (List.replicate 32 0)).ret = 0 ∧
     (esp_aes_crypt_cbc sampleAesHw emptyAesWorld
        { key := List.replicate 16 0, key_bytes := 16, key_in_hardware := 0 }
        1 32 (List.replicate 16 0) (List.replicate 32 0)
        (List.replicate 32 0)).ctx.key_bytes = 16 ∧
     (esp_aes_crypt_cbc sampleAesHw emptyAesWorld
        { key := List.replicate 16 0, key_bytes := 16, key_in_hardware := 0 }
        1 32 (List.replicate 16 0) (List.replicate 32 0)
        (List.replicate 32 0)).ctx.key_in_hardware = 32) := by
  refine ⟨⟨?_, ?_, ?_⟩, ⟨?_, ?_, ?_⟩⟩ <;> rfl

end AesPort

namespace BootPort

/-- C8: when the app CPU is fused off
(`EFUSE_RD_CHIP_VER_DIS_APP_CPU` set), `start_other_core` never enters
the busy-poll loop waiting on every core's `up` flag, instead marks
`s_cpu_inited[1] = true` itself, and the primary core's `call_start_cpu0`
run completes (invokes `SYS_STARTUP_FN`) with the secondary core's `up`
flag still false, whatever the reset reasons or the initial state. -/
theorem C8_fused_off_boot (rst0 rst1 : RESET_REASON) (s : BootState) :
    (call_start_cpu0 true rst0 rst1 s).2.1 = true ∧
    BootEvent.enteredPeerWaitLoop ∉ (call_start_cpu0 true rst0 rst1 s).2.2 ∧
    BootEvent.sysStartup ∈ (call_start_cpu0 true rst0 rst1 s).2.2 ∧
    (call_start_cpu0 true rst0 rst1 s).1.inited1 = true ∧
    (call_start_cpu0 true rst0 rst1 s).1.up1 = false := by
  unfold call_start_cpu0 start_other_core
  split <;> simp

/-- C9: in `call_start_cpu0` the ordinary `.bss` region is cleared for
every reset reason, while the battery-backed RTC bss region is cleared
iff the primary core's reset reason is not `DEEPSLEEP_RESET` (on a
deep-sleep resume it is left exactly as it was). -/
theorem C9_rtc_bss_cleared_iff_not_deepsleep (fuse : Bool)
    (rst0 rst1 : RESET_REASON) (s : BootState) :
    (call_start_cpu0 fuse rst0 rst1 s).1.bss = List.replicate s.bss.length 0 ∧
    (call_start_cpu0 fuse rst0 rst1 s).1.rtc_bss =
      (if rst0 = RESET_REASON.DEEPSLEEP_RESET then s.rtc_bss
       else List.replicate s.rtc_bss.length 0) := by
  by_cases h : rst0 = RESET_REASON.DEEPSLEEP_RESET <;>
    rcases fuse <;>
    simp [call_start_cpu0, start_other_core, memset_zero, h] <;>
    split <;> simp

end BootPort
